import Mathlib

/-!
Shallow embedding of `src/hooks/useTransactions.ts` from the
budget-wise personal-finance application, together with theorems that
settle the behavioural claims about it.

The hook manages an in-memory cache of transaction rows, fetches and
mutates rows through a remote store client, computes memoized financial
totals, and reacts to currency-change broadcast events.  Monetary values
(JavaScript numbers) are modelled as rationals; the remote store and the
audit log are modelled at the boundary by explicit response values passed
to each operation; the user-facing toast channel is modelled as a list of
emitted toasts.
-/

namespace BudgetWise

/-- The two-valued transaction classification (`'income' | 'expense'`). -/
inductive TxType
  | income
  | expense
deriving DecidableEq, Repr

/-- A persisted transaction row as stored in the remote store
(the `Transaction` interface minus the ephemeral `displayAmount`). -/
structure Row where
  id : String
  user_id : String
  type : TxType
  amount : ℚ
  category : String
  description : Option String
  transaction_date : String
  created_at : String
deriving DecidableEq, Repr

/-- A cache entry: a persisted row plus the ephemeral, presentation-only
`displayAmount` field the hook attaches to every cached entry. -/
structure Transaction extends Row where
  displayAmount : ℚ
deriving DecidableEq, Repr

/-- Annotate a store row for the cache: `{...row, displayAmount: row.amount}`. -/
def Row.withDisplayAmount (r : Row) : Transaction :=
  { toRow := r, displayAmount := r.amount }

/-- The active display currency `{code, symbol}`. -/
structure Currency where
  code : String
  symbol : String
deriving DecidableEq, Repr

/-- A JavaScript `Date` value, kept abstract as its ISO-8601 string
(the code only ever uses `d.toISOString()`). -/
structure JSDate where
  isoString : String
deriving DecidableEq, Repr

/-- The date portion of the ISO string: `d.toISOString().split('T')[0]`. -/
def JSDate.datePortion (d : JSDate) : String :=
  (d.isoString.splitOn "T").headD ""

/-- The optional inclusive date-range bounds `{start, end}` used by fetch. -/
structure DateRange where
  start : Option JSDate
  «end» : Option JSDate
deriving DecidableEq, Repr

/-- A filter predicate attached to a remote-store query
(`.eq(col, v)`, `.gte(col, v)`, `.lte(col, v)`). -/
inductive Filter
  | eq (column : String) (value : String)
  | gte (column : String) (value : String)
  | lte (column : String) (value : String)
deriving DecidableEq, Repr

/-- A remote-store read query: table, selected columns, a single sort key
with direction, and the accumulated filter predicates. -/
structure Query where
  table : String
  selectCols : String
  order : String
  ascending : Bool
  filters : List Filter
deriving DecidableEq, Repr

/-- The query built by `fetchTransactions`:
`supabase.from('transactions').select('*').order('transaction_date', {ascending:false})`,
then `.gte('transaction_date', start-date)` when `dateRange.start` is set and
`.lte('transaction_date', end-date)` when `dateRange.end` is set. -/
def buildFetchQuery (dateRange : DateRange) : Query :=
  let base : Query :=
    { table := "transactions", selectCols := "*",
      order := "transaction_date", ascending := false, filters := [] }
  let withStart :=
    match dateRange.start with
    | some d => { base with filters := base.filters ++ [Filter.gte "transaction_date" d.datePortion] }
    | none => base
  match dateRange.«end» with
  | some d => { withStart with filters := withStart.filters ++ [Filter.lte "transaction_date" d.datePortion] }
  | none => withStart

/-- Whether a query carries an owner-equality filter on `user_id`. -/
def hasOwnerEqFilter (q : Query) : Bool :=
  q.filters.any fun f =>
    match f with
    | Filter.eq c _ => c == "user_id"
    | _ => false

/-- The remote store's answer to one operation: either the affected data
or a structured failure (the `{data, error}` shape of the client). -/
inductive StoreResult (α : Type)
  | success (data : α)
  | failure (errMsg : String)
deriving DecidableEq, Repr

/-- A JavaScript return value that may be `undefined` (bare `return;`),
`null`, or an actual value. -/
inductive JSValue (α : Type)
  | undefined
  | null
  | value (a : α)
deriving DecidableEq, Repr

/-- A user-facing toast notification with its visual category. -/
inductive Toast
  | success (msg : String)
  | error (msg : String)
deriving DecidableEq, Repr

/-- The authenticated identity supplied by the auth context. -/
structure User where
  id : String
deriving DecidableEq, Repr

/-- The hook's local state: the transaction cache, the loading flag,
the date range, and the active display currency. -/
structure HookState where
  transactions : List Transaction
  loading : Bool
  dateRange : DateRange
  currentCurrency : Currency
deriving DecidableEq, Repr

/-- The state the hook starts from: empty cache, `loading = true`,
unbounded range, USD. -/
def initialState : HookState :=
  { transactions := [], loading := true,
    dateRange := { start := none, «end» := none },
    currentCurrency := { code := "USD", symbol := "$" } }

/-- Outcome of `fetchTransactions`: the new state, the toasts emitted, and
the query issued to the store (`none` when no store call was made). -/
structure FetchOutcome where
  state : HookState
  toasts : List Toast
  issuedQuery : Option Query
deriving DecidableEq, Repr

/-- The fetch operation `fetchTransactions`: no-op without a user; otherwise issues
`buildFetchQuery` for the current date range.  On success it replaces the
whole cache with the returned rows, each annotated with
`displayAmount = amount`; on failure it leaves the cache untouched and
shows an error toast.  Either way `loading` ends `false` (the `finally`). -/
def fetchTransactions (user : Option User) (resp : StoreResult (List Row))
    (s : HookState) : FetchOutcome :=
  match user with
  | none => ⟨s, [], none⟩
  | some _ =>
    match resp with
    | StoreResult.success rows =>
        ⟨{ s with transactions := rows.map Row.withDisplayAmount, loading := false },
         [], some (buildFetchQuery s.dateRange)⟩
    | StoreResult.failure _ =>
        ⟨{ s with loading := false },
         [Toast.error "Failed to load transactions"], some (buildFetchQuery s.dateRange)⟩

/-- The payload of a `currency-change` broadcast event. -/
structure CurrencyEvent where
  code : String
  symbol : String
  conversionRate : ℚ
deriving DecidableEq, Repr

/-- A write issued to the remote store (used to show the currency handler
issues none). -/
inductive StoreWrite
  | insert (table : String)
  | update (table : String)
  | delete (table : String)
deriving DecidableEq, Repr

/-- The currency-event handler `handleCurrencyChange`: sets the active currency to `{code, symbol}` and
maps every cached entry to `{...tx, displayAmount: tx.amount * conversionRate}`.
The second component lists the remote-store writes performed: there are none. -/
def handleCurrencyChange (e : CurrencyEvent) (s : HookState) :
    HookState × List StoreWrite :=
  ({ s with
      currentCurrency := { code := e.code, symbol := e.symbol },
      transactions := s.transactions.map fun tx =>
        { tx with displayAmount := tx.amount * e.conversionRate } },
   [])

/-- Caller-supplied fields of a new transaction
(`Omit<Transaction, 'id' | 'user_id' | 'created_at'>`). -/
structure NewTransaction where
  type : TxType
  amount : ℚ
  category : String
  description : Option String
  transaction_date : String
deriving DecidableEq, Repr

/-- Outcome of a mutating operation: new state, returned JS value, toasts. -/
structure MutationOutcome (α : Type) where
  state : HookState
  result : JSValue α
  toasts : List Toast
deriving DecidableEq, Repr

/-- The create operation `addTransaction`: no-op (returns `undefined`) without a user.  On insert
success the store-assigned row, annotated with `displayAmount = amount`, is
prepended to the cache and returned; on failure the cache is untouched, an
error toast is shown and `null` is returned.  The audit-log insert's
response (`_auditResp`) is awaited but its result is never inspected. -/
def addTransaction (user : Option User) (newTransaction : NewTransaction)
    (insertResp : StoreResult Row) (_auditResp : StoreResult Unit)
    (s : HookState) : MutationOutcome Transaction :=
  match user with
  | none => ⟨s, JSValue.undefined, []⟩
  | some _ =>
    match insertResp with
    | StoreResult.success row =>
        let newTx := row.withDisplayAmount
        ⟨{ s with transactions := newTx :: s.transactions },
         JSValue.value newTx,
         [Toast.success (if newTransaction.type = TxType.income then
            "Income added successfully" else "Expense added successfully")]⟩
    | StoreResult.failure _ =>
        ⟨s, JSValue.null, [Toast.error "Failed to add transaction"]⟩

/-- The update operation `updateTransaction`: no-op without a user.  On update success the
returned row (with `displayAmount = amount`) replaces every cache entry
whose id matches, in place; on failure the cache is untouched, an error
toast is shown and `null` is returned.  The audit response is ignored. -/
def updateTransaction (user : Option User) (id : String)
    (updateResp : StoreResult Row) (_auditResp : StoreResult Unit)
    (s : HookState) : MutationOutcome Transaction :=
  match user with
  | none => ⟨s, JSValue.undefined, []⟩
  | some _ =>
    match updateResp with
    | StoreResult.success row =>
        let updatedTx := row.withDisplayAmount
        ⟨{ s with transactions :=
            s.transactions.map fun t => if t.id = id then updatedTx else t },
         JSValue.value updatedTx,
         [Toast.success "Transaction updated successfully"]⟩
    | StoreResult.failure _ =>
        ⟨s, JSValue.null, [Toast.error "Failed to update transaction"]⟩

/-- The remove operation `deleteTransaction`: no-op without a user.  On delete success every
cache entry with the given id is filtered out and `true` is returned; on
failure the cache is untouched, an error toast is shown and `false` is
returned.  The audit response is ignored. -/
def deleteTransaction (user : Option User) (id : String)
    (deleteResp : StoreResult Unit) (_auditResp : StoreResult Unit)
    (s : HookState) : MutationOutcome Bool :=
  match user with
  | none => ⟨s, JSValue.undefined, []⟩
  | some _ =>
    match deleteResp with
    | StoreResult.success _ =>
        ⟨{ s with transactions := s.transactions.filter fun t => t.id != id },
         JSValue.value true,
         [Toast.success "Transaction deleted successfully"]⟩
    | StoreResult.failure _ =>
        ⟨s, JSValue.value false, [Toast.error "Failed to delete transaction"]⟩

/-- A host locale, as picked up by `toLocaleString(undefined, ...)`:
the `undefined` locale argument means the runtime's default locale, so the
rendered string depends on it.  Two representative locales are modelled. -/
inductive Locale
  | enUS
  | deDE
deriving DecidableEq, Repr

/-- The locale's digit-group separator. -/
def Locale.groupSep : Locale → String
  | Locale.enUS => ","
  | Locale.deDE => "."

/-- The locale's decimal separator. -/
def Locale.decimalSep : Locale → String
  | Locale.enUS => "."
  | Locale.deDE => ","

/-- Split a reversed digit list into groups of three (least significant
group first). -/
def chunk3 : List Char → List (List Char)
  | [] => []
  | [a] => [[a]]
  | [a, b] => [[a, b]]
  | a :: b :: c :: rest => [a, b, c] :: chunk3 rest

/-- Insert the group separator every three digits, counting from the right,
into a most-significant-first digit list. -/
def groupDigits (sep : String) (digits : List Char) : String :=
  String.mk
    ((((chunk3 digits.reverse).map List.reverse).reverse.intersperse sep.toList).foldl
      (· ++ ·) [])

/-- The absolute value of a rational, via its numerator's sign. -/
def qabs (x : ℚ) : ℚ := if x.num < 0 then -x else x

/-- For a non-negative rational `q`, the number of cents after rounding
`q` to two fraction digits half away from zero:
`⌊q * 100 + 1/2⌋ = ⌊(200 * q.num + q.den) / (2 * q.den)⌋`. -/
def centsHalfUp (q : ℚ) : Nat :=
  (200 * q.num.toNat + q.den) / (2 * q.den)

/-- The rendering `x.toLocaleString(undefined, \x7bminimumFractionDigits: 2, maximumFractionDigits: 2\x7d)`:
the number rendered in the host locale with exactly two fraction digits
(rounding half away from zero) and that locale's digit grouping. -/
def toLocaleStringFixed2 (locale : Locale) (x : ℚ) : String :=
  let m : Nat := centsHalfUp (qabs x)
  let intPart : Nat := m / 100
  let fracPart : Nat := m % 100
  let grouped := groupDigits locale.groupSep (Nat.toDigits 10 intPart)
  (if x.num < 0 then "-" else "") ++ grouped ++ locale.decimalSep ++
    (if fracPart < 10 then "0" else "") ++ toString fracPart

/-- The memoized financial summary: totals plus their formatted strings. -/
structure FinancialSummary where
  income : ℚ
  expenses : ℚ
  balance : ℚ
  formattedIncome : String
  formattedExpenses : String
  formattedBalance : String
deriving DecidableEq, Repr

/-- The memoized aggregation `financialSummary`: `income` is the reduce of `amount` over entries with
`type === 'income'`, `expenses` the same for `'expense'`,
`balance = income - expenses`; each is formatted as the currency symbol
concatenated with its `toLocaleString(undefined, {2,2})` rendering. -/
def financialSummary (locale : Locale) (transactions : List Transaction)
    (currentCurrency : Currency) : FinancialSummary :=
  let income :=
    (transactions.filter fun t => t.type == TxType.income).foldl
      (fun sum t => sum + t.amount) 0
  let expenses :=
    (transactions.filter fun t => t.type == TxType.expense).foldl
      (fun sum t => sum + t.amount) 0
  let balance := income - expenses
  { income := income, expenses := expenses, balance := balance,
    formattedIncome := currentCurrency.symbol ++ toLocaleStringFixed2 locale income,
    formattedExpenses := currentCurrency.symbol ++ toLocaleStringFixed2 locale expenses,
    formattedBalance := currentCurrency.symbol ++ toLocaleStringFixed2 locale balance }

/-! Concrete values used by scenario theorems and counterexamples. -/

/-- The USD display currency the hook starts with. -/
def usd : Currency := { code := "USD", symbol := "$" }

/-- Scenario entry `{income, 100}`. -/
def scenarioIncomeTx : Transaction :=
  { id := "t1", user_id := "user-1", type := TxType.income, amount := 100,
    category := "salary", description := none,
    transaction_date := "2024-01-01", created_at := "2024-01-01T00:00:00Z",
    displayAmount := 100 }

/-- Scenario entry `{expense, 40}`. -/
def scenarioExpenseTx : Transaction :=
  { id := "t2", user_id := "user-1", type := TxType.expense, amount := 40,
    category := "food", description := none,
    transaction_date := "2024-01-02", created_at := "2024-01-02T00:00:00Z",
    displayAmount := 40 }

/-- The scenario cache `[{income,100},{expense,40}]`. -/
def scenarioCache : List Transaction := [scenarioIncomeTx, scenarioExpenseTx]

/-- A state whose cache holds exactly the two scenario entries. -/
def scenarioState : HookState :=
  { transactions := scenarioCache, loading := false,
    dateRange := { start := none, «end» := none }, currentCurrency := usd }

/-- The scenario create input `{expense, 25, food, 2024-01-05}`. -/
def newExpenseInput : NewTransaction :=
  { type := TxType.expense, amount := 25, category := "food",
    description := none, transaction_date := "2024-01-05" }

/-- A store-assigned row answering the scenario create. -/
def storedExpenseRow : Row :=
  { id := "t3", user_id := "user-1", type := TxType.expense, amount := 25,
    category := "food", description := none,
    transaction_date := "2024-01-05", created_at := "2024-01-05T00:00:00Z" }

/-! Evaluation checks for the locale renderer -/

example : toLocaleStringFixed2 Locale.enUS 60 = "60.00" := by decide
example : toLocaleStringFixed2 Locale.enUS 1234567 = "1,234,567.00" := by decide
example : toLocaleStringFixed2 Locale.deDE (mkRat 12345 10) = "1.234,50" := by decide
example : toLocaleStringFixed2 Locale.enUS (-60) = "-60.00" := by decide

/-! Helper lemmas -/

/-- The reduce `(sum, t) => sum + t.amount` computes the sum of the amounts. -/
theorem foldl_add_amount (l : List Transaction) (a : ℚ) :
    l.foldl (fun sum t => sum + t.amount) a = a + (l.map fun t => t.amount).sum := by
  induction l generalizing a with
  | nil => simp
  | cons h t ih => simp [ih]; ring

/-! Claim theorems -/

/-- C1 counterexample: with an authenticated user present and no date
bounds, `fetchTransactions` issues a query whose filter list is empty — in
particular it contains no owner-equality filter — so the query is not
"filtered by owner equality" as the claim states. -/
theorem fetch_query_no_owner_filter_cex :
    (fetchTransactions (some { id := "user-1" }) (StoreResult.success []) initialState).issuedQuery =
      some { table := "transactions", selectCols := "*", order := "transaction_date",
             ascending := false, filters := [] } ∧
    hasOwnerEqFilter (buildFetchQuery initialState.dateRange) = false :=
  ⟨rfl, rfl⟩

/-- C1 (amended): for every fetch performed with an authenticated identity
present, the issued query targets the `transactions` table ordered by
`transaction_date` descending, its filters are exactly the inclusive
`gte`/`lte` bounds on the date portion of `range.start`/`range.end` when
those are present, and it contains no owner-equality filter (owner scoping
is left to the remote store). -/
theorem fetch_query_shape (u : User) (resp : StoreResult (List Row)) (s : HookState) :
    (fetchTransactions (some u) resp s).issuedQuery = some (buildFetchQuery s.dateRange) ∧
    (buildFetchQuery s.dateRange).table = "transactions" ∧
    (buildFetchQuery s.dateRange).order = "transaction_date" ∧
    (buildFetchQuery s.dateRange).ascending = false ∧
    (buildFetchQuery s.dateRange).filters =
      ((s.dateRange.start.map fun d => Filter.gte "transaction_date" d.datePortion).toList ++
       (s.dateRange.«end».map fun d => Filter.lte "transaction_date" d.datePortion).toList) ∧
    hasOwnerEqFilter (buildFetchQuery s.dateRange) = false := by
  obtain ⟨ts, ld, ⟨st, en⟩, cur⟩ := s
  refine ⟨?_, ?_, ?_, ?_, ?_, ?_⟩ <;>
    cases resp <;> cases st <;> cases en <;>
      simp [fetchTransactions, buildFetchQuery, hasOwnerEqFilter]

/-- C2: handling a currency-change event `{code, symbol, conversionRate}`
sets the active display currency to `{code, symbol}`, rewrites every cached
entry's `displayAmount` to `amount * conversionRate`, leaves every entry's
persisted row (in particular `amount`) unchanged, and performs no write to
the remote store. -/
theorem currency_change_display_only (e : CurrencyEvent) (s : HookState) :
    (handleCurrencyChange e s).1.currentCurrency = { code := e.code, symbol := e.symbol } ∧
    ((handleCurrencyChange e s).1.transactions.map fun t => t.displayAmount) =
      (s.transactions.map fun t => t.amount * e.conversionRate) ∧
    ((handleCurrencyChange e s).1.transactions.map fun t => t.toRow) =
      (s.transactions.map fun t => t.toRow) ∧
    ((handleCurrencyChange e s).1.transactions.map fun t => t.amount) =
      (s.transactions.map fun t => t.amount) ∧
    (handleCurrencyChange e s).1.transactions.length = s.transactions.length ∧
    (handleCurrencyChange e s).2 = [] := by
  refine ⟨rfl, ?_, ?_, ?_, ?_, rfl⟩ <;>
    simp [handleCurrencyChange, Function.comp]

/-- C3: for every locale, cache and display currency, the summary's
`income` is the sum of `amount` over entries with kind `income`, `expenses`
is the sum over entries with kind `expense`, and
`balance = income - expenses`. -/
theorem summary_totals (locale : Locale) (C : List Transaction) (X : Currency) :
    (financialSummary locale C X).income =
      ((C.filter fun t => t.type == TxType.income).map fun t => t.amount).sum ∧
    (financialSummary locale C X).expenses =
      ((C.filter fun t => t.type == TxType.expense).map fun t => t.amount).sum ∧
    (financialSummary locale C X).balance =
      (financialSummary locale C X).income - (financialSummary locale C X).expenses := by
  refine ⟨?_, ?_, rfl⟩ <;> simp [financialSummary, foldl_add_amount]

/-- C4: when the remote store reports a failure on a mutating operation
(create, update or remove, user present), the cache is left in its
last-known-good state, an error toast reports the failure to the user, and
the operation returns its sentinel (`null` for create and update, `false`
for remove); each modelled operation is a total function, so no exception
propagates to the caller. -/
theorem mutation_failure_sentinels (u : User) (nt : NewTransaction)
    (idU idD : String) (e1 e2 e3 : String)
    (a1 a2 a3 : StoreResult Unit) (s : HookState) :
    (addTransaction (some u) nt (StoreResult.failure e1) a1 s).state = s ∧
    (addTransaction (some u) nt (StoreResult.failure e1) a1 s).result = JSValue.null ∧
    (addTransaction (some u) nt (StoreResult.failure e1) a1 s).toasts =
      [Toast.error "Failed to add transaction"] ∧
    (updateTransaction (some u) idU (StoreResult.failure e2) a2 s).state = s ∧
    (updateTransaction (some u) idU (StoreResult.failure e2) a2 s).result = JSValue.null ∧
    (updateTransaction (some u) idU (StoreResult.failure e2) a2 s).toasts =
      [Toast.error "Failed to update transaction"] ∧
    (deleteTransaction (some u) idD (StoreResult.failure e3) a3 s).state = s ∧
    (deleteTransaction (some u) idD (StoreResult.failure e3) a3 s).result = JSValue.value false ∧
    (deleteTransaction (some u) idD (StoreResult.failure e3) a3 s).toasts =
      [Toast.error "Failed to delete transaction"] :=
  ⟨rfl, rfl, rfl, rfl, rfl, rfl, rfl, rfl, rfl⟩

/-- The scenario cache sums to income 100, expenses 40, balance 60,
whatever the host locale. -/
theorem scenarioSummary_totals (locale : Locale) :
    (financialSummary locale scenarioCache usd).income = 100 ∧
    (financialSummary locale scenarioCache usd).expenses = 40 ∧
    (financialSummary locale scenarioCache usd).balance = 60 := by
  refine ⟨?_, ?_, ?_⟩ <;>
    · simp only [financialSummary, scenarioCache, scenarioIncomeTx, scenarioExpenseTx,
        List.filter, List.foldl]
      norm_num

/-- C5 counterexample: the rendering of `toLocaleString(undefined, ...)`
depends on the host's default locale, so the formatted string is not
locale-independent: under a de-DE default locale the scenario cache
formats the balance as "$60,00", not "$60.00". -/
theorem summary_format_locale_dependent_cex :
    (financialSummary Locale.deDE scenarioCache usd).formattedBalance = "$60,00" ∧
    (financialSummary Locale.deDE scenarioCache usd).formattedBalance ≠ "$60.00" := by
  have hb : (financialSummary Locale.deDE scenarioCache usd).balance = 60 :=
    (scenarioSummary_totals Locale.deDE).2.2
  have hf : (financialSummary Locale.deDE scenarioCache usd).formattedBalance =
      "$" ++ toLocaleStringFixed2 Locale.deDE
        (financialSummary Locale.deDE scenarioCache usd).balance := rfl
  rw [hf, hb]
  exact ⟨by decide, by decide⟩

/-- C5 (amended): every formatted summary string equals the active currency
symbol concatenated with the number rendered in the host's default locale
with exactly two fraction digits and that locale's group separators (the
format is locale-dependent, not locale-independent); under an en-US default
locale the scenario cache `[{income,100},{expense,40}]` with symbol "$"
yields income=100, expenses=40, balance=60 and formattedBalance="$60.00". -/
theorem summary_formatting (locale : Locale) (C : List Transaction) (X : Currency) :
    (financialSummary locale C X).formattedIncome =
      X.symbol ++ toLocaleStringFixed2 locale (financialSummary locale C X).income ∧
    (financialSummary locale C X).formattedExpenses =
      X.symbol ++ toLocaleStringFixed2 locale (financialSummary locale C X).expenses ∧
    (financialSummary locale C X).formattedBalance =
      X.symbol ++ toLocaleStringFixed2 locale (financialSummary locale C X).balance ∧
    (financialSummary Locale.enUS scenarioCache usd).income = 100 ∧
    (financialSummary Locale.enUS scenarioCache usd).expenses = 40 ∧
    (financialSummary Locale.enUS scenarioCache usd).balance = 60 ∧
    (financialSummary Locale.enUS scenarioCache usd).formattedBalance = "$60.00" := by
  have hs := scenarioSummary_totals Locale.enUS
  refine ⟨rfl, rfl, rfl, hs.1, hs.2.1, hs.2.2, ?_⟩
  have hf : (financialSummary Locale.enUS scenarioCache usd).formattedBalance =
      "$" ++ toLocaleStringFixed2 Locale.enUS
        (financialSummary Locale.enUS scenarioCache usd).balance := rfl
  rw [hf, hs.2.2]
  decide

/-- C6: for every create that succeeds at the remote store (user present),
the cache grows by exactly one entry; the new entry sits at index 0, is the
store-assigned row (identifier included) annotated with
`displayAmount = amount`, and all previously cached entries follow it
unchanged in their prior relative order. -/
theorem create_success_prepends (u : User) (nt : NewTransaction) (row : Row)
    (audit : StoreResult Unit) (s : HookState) :
    (addTransaction (some u) nt (StoreResult.success row) audit s).state.transactions.length =
      s.transactions.length + 1 ∧
    (addTransaction (some u) nt (StoreResult.success row) audit s).state.transactions.head? =
      some row.withDisplayAmount ∧
    row.withDisplayAmount.id = row.id ∧
    row.withDisplayAmount.displayAmount = row.amount ∧
    (addTransaction (some u) nt (StoreResult.success row) audit s).state.transactions.tail =
      s.transactions ∧
    (addTransaction (some u) nt (StoreResult.success row) audit s).result =
      JSValue.value row.withDisplayAmount :=
  ⟨rfl, rfl, rfl, rfl, rfl, rfl⟩

/-- C7: for every update(id) that succeeds at the remote store with an
updated row (user present), the cache becomes the pointwise replacement of
exactly the entries whose identifier equals id by the updated row — every
position is preserved and every entry with a different identifier is
byte-for-byte unchanged. -/
theorem update_success_replaces_in_place (u : User) (id : String) (row : Row)
    (audit : StoreResult Unit) (s : HookState) :
    (updateTransaction (some u) id (StoreResult.success row) audit s).state.transactions =
      s.transactions.map (fun t => if t.id = id then row.withDisplayAmount else t) ∧
    (updateTransaction (some u) id (StoreResult.success row) audit s).state.transactions.length =
      s.transactions.length ∧
    (∀ i : Nat,
      ((updateTransaction (some u) id (StoreResult.success row) audit s).state.transactions)[i]? =
        (s.transactions[i]?).map fun t => if t.id = id then row.withDisplayAmount else t) ∧
    (updateTransaction (some u) id (StoreResult.success row) audit s).result =
      JSValue.value row.withDisplayAmount := by
  refine ⟨rfl, ?_, ?_, rfl⟩
  · simp [updateTransaction]
  · intro i
    simp [updateTransaction]

/-- Removing the entries whose id matches and counting the entries whose id
matches partition the cache: filtered length plus match count is the total. -/
theorem length_filter_ne_add_countP (id : String) (l : List Transaction) :
    (l.filter fun t => t.id != id).length + (l.countP fun t => t.id == id) = l.length := by
  induction l with
  | nil => rfl
  | cons h t ih =>
    by_cases hc : h.id = id <;>
      simp [List.countP_cons, List.filter_cons, hc] <;>
      omega

/-- C8 counterexample: a remove whose store delete succeeds but whose
identifier is absent from the cache leaves the cache size unchanged:
removing "missing-id" from the two-entry scenario state returns true yet
the size stays 2, so the size does not decrease by exactly one. -/
theorem remove_success_size_cex :
    (deleteTransaction (some { id := "user-1" }) "missing-id"
        (StoreResult.success ()) (StoreResult.success ()) scenarioState).result =
      JSValue.value true ∧
    (deleteTransaction (some { id := "user-1" }) "missing-id"
        (StoreResult.success ()) (StoreResult.success ()) scenarioState).state.transactions.length =
      scenarioState.transactions.length ∧
    ¬ ((deleteTransaction (some { id := "user-1" }) "missing-id"
        (StoreResult.success ()) (StoreResult.success ()) scenarioState).state.transactions.length + 1 =
      scenarioState.transactions.length) :=
  ⟨rfl, by decide, by decide⟩

/-- C8 (amended): after a remove(id) that succeeds at the remote store
(user present), no cache entry with identifier id remains and the cache
size decreases by exactly the number of entries that bore that identifier —
exactly one whenever the cache held exactly one such entry (the normal
case, identifiers being unique), and zero when it held none. -/
theorem remove_success_filters (u : User) (id : String)
    (audit : StoreResult Unit) (s : HookState) :
    (deleteTransaction (some u) id (StoreResult.success ()) audit s).state.transactions =
      s.transactions.filter (fun t => t.id != id) ∧
    ((deleteTransaction (some u) id (StoreResult.success ()) audit s).state.transactions.all
      fun t => t.id != id) = true ∧
    (deleteTransaction (some u) id (StoreResult.success ()) audit s).state.transactions.length +
      (s.transactions.countP fun t => t.id == id) = s.transactions.length ∧
    (deleteTransaction (some u) id (StoreResult.success ()) audit s).result =
      JSValue.value true := by
  refine ⟨rfl, ?_, ?_, rfl⟩
  · simp [deleteTransaction, List.all_eq_true, List.mem_filter]
  · exact length_filter_ne_add_countP id s.transactions

/-- C9 counterexample: a create whose primary insert succeeds but whose
audit-log insert fails still takes the success path: the result is the new
transaction (not the null sentinel), the cache gains the entry, and a
success toast — not a failure report — is emitted.  The audit response is
never inspected, contradicting the claim that the operation takes the
failure path. -/
theorem audit_failure_ignored_cex :
    (addTransaction (some { id := "user-1" }) newExpenseInput
        (StoreResult.success storedExpenseRow) (StoreResult.failure "audit insert failed")
        initialState).result = JSValue.value storedExpenseRow.withDisplayAmount ∧
    (addTransaction (some { id := "user-1" }) newExpenseInput
        (StoreResult.success storedExpenseRow) (StoreResult.failure "audit insert failed")
        initialState).result ≠ JSValue.null ∧
    (addTransaction (some { id := "user-1" }) newExpenseInput
        (StoreResult.success storedExpenseRow) (StoreResult.failure "audit insert failed")
        initialState).state.transactions ≠ initialState.transactions ∧
    (addTransaction (some { id := "user-1" }) newExpenseInput
        (StoreResult.success storedExpenseRow) (StoreResult.failure "audit insert failed")
        initialState).toasts = [Toast.success "Expense added successfully"] :=
  ⟨rfl, by decide, by decide, rfl⟩

/-- C9 (amended): the audit-log insert's response is never inspected: every
mutating operation produces exactly the same state, result and toasts
whatever the audit response is, so an audit failure after a successful
primary mutation does not divert the operation to its failure path — the
mutation is still applied to the cache and success is still reported. -/
theorem audit_response_ignored (user : Option User) (nt : NewTransaction)
    (idU idD : String) (p : StoreResult Row) (pu : StoreResult Row)
    (pd : StoreResult Unit) (a1 a2 : StoreResult Unit) (s : HookState) :
    addTransaction user nt p a1 s = addTransaction user nt p a2 s ∧
    updateTransaction user idU pu a1 s = updateTransaction user idU pu a2 s ∧
    deleteTransaction user idD pd a1 s = deleteTransaction user idD pd a2 s :=
  ⟨rfl, rfl, rfl⟩

/-- The income/expense fold is unchanged by the currency handler's
display-only rewrite, because the rewrite touches neither `type` nor
`amount`. -/
theorem fold_amount_of_display_map (r : ℚ) (k : TxType) (l : List Transaction) :
    ((l.map fun tx => { tx with displayAmount := tx.amount * r }).filter
        fun t => t.type == k).foldl (fun sum t => sum + t.amount) 0 =
      (l.filter fun t => t.type == k).foldl (fun sum t => sum + t.amount) 0 := by
  rw [List.filter_map, List.foldl_map]
  rfl

/-- C10: the summary's totals are computed from `amount`, never from
`displayAmount`: after a currency-change event the income, expenses and
balance equal those computed before it, and each formatted string is the
event's symbol followed by exactly the digits rendered before — only the
currency symbol changes. -/
theorem summary_invariant_under_currency_change (locale : Locale)
    (e : CurrencyEvent) (s : HookState) :
    (financialSummary locale (handleCurrencyChange e s).1.transactions
        (handleCurrencyChange e s).1.currentCurrency).income =
      (financialSummary locale s.transactions s.currentCurrency).income ∧
    (financialSummary locale (handleCurrencyChange e s).1.transactions
        (handleCurrencyChange e s).1.currentCurrency).expenses =
      (financialSummary locale s.transactions s.currentCurrency).expenses ∧
    (financialSummary locale (handleCurrencyChange e s).1.transactions
        (handleCurrencyChange e s).1.currentCurrency).balance =
      (financialSummary locale s.transactions s.currentCurrency).balance ∧
    (financialSummary locale (handleCurrencyChange e s).1.transactions
        (handleCurrencyChange e s).1.currentCurrency).formattedIncome =
      e.symbol ++ toLocaleStringFixed2 locale
        (financialSummary locale s.transactions s.currentCurrency).income ∧
    (financialSummary locale (handleCurrencyChange e s).1.transactions
        (handleCurrencyChange e s).1.currentCurrency).formattedExpenses =
      e.symbol ++ toLocaleStringFixed2 locale
        (financialSummary locale s.transactions s.currentCurrency).expenses ∧
    (financialSummary locale (handleCurrencyChange e s).1.transactions
        (handleCurrencyChange e s).1.currentCurrency).formattedBalance =
      e.symbol ++ toLocaleStringFixed2 locale
        (financialSummary locale s.transactions s.currentCurrency).balance := by
  have hi := fold_amount_of_display_map e.conversionRate TxType.income s.transactions
  have he := fold_amount_of_display_map e.conversionRate TxType.expense s.transactions
  refine ⟨?_, ?_, ?_, ?_, ?_, ?_⟩ <;>
    simp [financialSummary, handleCurrencyChange, hi, he]

end BudgetWise
